import Mathlib

/-!
Shallow embedding of the naked-sqla row-hydration layer:
`naked_sqla/om/session.py`, `naked_sqla/om/asession.py`,
`naked_sqla/om/bulk_persistent.py`, `naked_sqla/session.py`,
`naked_sqla/bulk_persistent.py`, `naked_sqla/context.py`.

Conventions of the embedding:
* async methods are modelled by explicit state passing; an `async` method and
  its sync twin become pure functions of the same shape;
* the SQLAlchemy `Connection` is modelled by `Conn`: a database of `EventRow`s
  (the entity shape used throughout the repository's tests), a transaction
  flag, a round-trip counter, and a trace of connection-level calls;
* Python object identity is modelled by an allocator counter `Conn.alloc`:
  every hydrated object receives a fresh `objId`, mirroring the fact that each
  constructed Python object is a distinct heap object;
* Python exceptions are modelled with `Except`; an exception raised by a
  method leaves the session record it was called on unchanged, so each method
  returns its `Except` outcome together with the resulting session.
-/

/-- A raw SQL column value as delivered by the cursor. -/
inductive Cell where
  | str (v : String)
  | num (v : Nat)
deriving DecidableEq, Repr

/-- The `Event` entity used by the repository's tests
(`src/tests/test_complicated_update.py`): columns
`id`, `author_id`, `event`, `created_at` (timestamps as `Nat`). -/
structure EventRow where
  id : String
  authorId : String
  event : String
  createdAt : Nat
deriving DecidableEq, Repr

/-- The raw column values of one `Event` row, in declared column order. -/
def EventRow.toRaw (r : EventRow) : List Cell :=
  [Cell.str r.id, Cell.str r.authorId, Cell.str r.event, Cell.num r.createdAt]

/-- One selected entity target of a compiled projection.  The repository's
tests map every selected entity to the four-column `Event` shape. -/
inductive EntityShape where
  | eventEntity
deriving DecidableEq, Repr

/-- The compiled `from_statement_ctx` of a mutation statement with RETURNING:
the `compile_options._is_star` marker plus the per-target entity mapping. -/
structure FromCtx where
  _is_star : Bool
  shapes : List EntityShape
deriving DecidableEq, Repr

/-- `result.context.compiled.compile_state`: what the SQL compiler reports
about a statement's result columns.  `from_statement_ctx` is consulted by the
mutation path; `compile_state_shapes` is the projection that the generic
(select) path hydrates with. -/
structure CompiledInfo where
  from_statement_ctx : Option FromCtx
  compile_state_shapes : List EntityShape
deriving DecidableEq, Repr

/-- The Python class of a statement object, as far as the `isinstance` chains
in `Session.execute` inspect it.  `dml.Insert`, `dml.Update` and `dml.Delete`
are subclasses of `Executable`; `nonExecutableC` stands for any value that is
not an `Executable` at all. -/
inductive StmtClass where
  | insertC
  | updateC
  | deleteC
  | selectC
  | textC
  | nonExecutableC
deriving DecidableEq, Repr

/-- What the database does with the statement (the external SQL engine's
semantics, restricted to the statements exercised by the repository's tests).
`updateLead` is the window-function update of `complicated_update_scenario`:
set `event = "2"` on every row whose `lead(event)` (next row of the same
author by `created_at`) equals `"2"`. -/
inductive StmtSem where
  | insertEvents (rows : List EventRow)
  | updateLead
  | selectAll
  | selectJoinSelf
  | noRows
deriving DecidableEq, Repr

/-- A statement as the layer sees it: its Python class, the truthiness of
`statement._returning`, the compiler's description of it, and its semantics
for the modelled engine. -/
structure Statement where
  cls : StmtClass
  _returning : Bool
  compiled : CompiledInfo
  sem : StmtSem
deriving DecidableEq, Repr

/-- `isinstance(statement, Executable)`: every modelled statement class except
a non-executable value is an `Executable` (the dml classes included). -/
def Statement.isExecutable (st : Statement) : Bool :=
  st.cls != StmtClass.nonExecutableC

/-- A connection-level call, recorded in order on the connection's trace. -/
inductive ConnCall where
  | executeCall
  | commitCall
  | rollbackCall
deriving DecidableEq, Repr

/-- Failures of the external connection (driver errors on commit/rollback). -/
inductive ConnErr where
  | commitFailed
  | rollbackFailed
deriving DecidableEq, Repr

/-- The external SQLAlchemy `Connection`.  `commitRaises`/`rollbackRaises`
inject driver failures for the error-path analysis. -/
structure Conn where
  db : List EventRow
  inTx : Bool := true
  trips : Nat := 0
  calls : List ConnCall := []
  alloc : Nat := 0
  commitRaises : Bool := false
  rollbackRaises : Bool := false
deriving DecidableEq, Repr

/-- A raw cursor result: the raw rows plus the compiled metadata that
`result.context.compiled.compile_state` exposes. -/
structure RawResult where
  rows : List (List Cell)
  compiled : CompiledInfo
deriving DecidableEq, Repr

/-- Rows of the same author strictly later than `r` by `created_at`. -/
def laterRows (db : List EventRow) (r : EventRow) : List EventRow :=
  db.filter (fun s => s.authorId == r.authorId && decide (r.createdAt < s.createdAt))

/-- The row with the smallest `created_at` (first such row on ties). -/
def minByCreatedAt : List EventRow → Option EventRow
  | [] => none
  | x :: xs =>
    match minByCreatedAt xs with
    | none => some x
    | some y => if x.createdAt ≤ y.createdAt then some x else some y

/-- SQL `lead(event) OVER (PARTITION BY author_id ORDER BY created_at)` at
row `r`: the event of the earliest strictly-later row of the same author. -/
def leadEvent (db : List EventRow) (r : EventRow) : Option String :=
  (minByCreatedAt (laterRows db r)).map EventRow.event

/-- Database effect of the update in `complicated_update_scenario`:
`UPDATE Events SET event='2' WHERE id IN (SELECT id ... WHERE next_event='2')`. -/
def applyLeadUpdate (db : List EventRow) : List EventRow :=
  db.map (fun r => if leadEvent db r = some "2" then { r with event := "2" } else r)

/-- The rows emitted by the RETURNING clause of that update: the affected
rows with their post-update column values. -/
def leadUpdateReturning (db : List EventRow) : List EventRow :=
  (db.filter (fun r => leadEvent db r == some "2")).map (fun r => { r with event := "2" })

/-- `conn.execute(statement, ...)`: one database round trip.  Returns the
mutated connection and the raw cursor result carrying the statement's
compiled metadata. -/
def Conn.execute (c : Conn) (st : Statement) : Conn × RawResult :=
  let c := { c with trips := c.trips + 1, calls := c.calls ++ [ConnCall.executeCall] }
  match st.sem with
  | .insertEvents rows =>
    ({ c with db := c.db ++ rows },
     ⟨if st._returning then rows.map EventRow.toRaw else [], st.compiled⟩)
  | .updateLead =>
    ({ c with db := applyLeadUpdate c.db },
     ⟨if st._returning then (leadUpdateReturning c.db).map EventRow.toRaw else [],
      st.compiled⟩)
  | .selectAll => (c, ⟨c.db.map EventRow.toRaw, st.compiled⟩)
  | .selectJoinSelf => (c, ⟨c.db.map (fun r => r.toRaw ++ r.toRaw), st.compiled⟩)
  | .noRows => (c, ⟨[], st.compiled⟩)

/-- `conn.commit()`: records the call; commits (ends the transaction) unless
the injected driver failure fires. -/
def Conn.commit (c : Conn) : Except ConnErr Unit × Conn :=
  let c := { c with calls := c.calls ++ [ConnCall.commitCall] }
  if c.commitRaises then (.error .commitFailed, c)
  else (.ok (), { c with inTx := false })

/-- `conn.rollback()`: records the call; rolls back unless the injected
driver failure fires. -/
def Conn.rollback (c : Conn) : Except ConnErr Unit × Conn :=
  let c := { c with calls := c.calls ++ [ConnCall.rollbackCall] }
  if c.rollbackRaises then (.error .rollbackFailed, c)
  else (.ok (), { c with inTx := false })

/-- `conn.in_transaction()`. -/
def Conn.in_transaction (c : Conn) : Bool := c.inTx

/-- A hydrated entity object: its attribute values plus its object identity
(`objId` models the Python heap address; every construction is fresh). -/
structure HObj where
  objId : Nat
  entity : EventRow
deriving DecidableEq, Repr

/-- Instantiate the `Event` entity from its four raw columns. -/
def hydrateEntity : List Cell → EventRow
  | Cell.str i :: Cell.str a :: Cell.str e :: Cell.num c :: _ => ⟨i, a, e, c⟩
  | _ => ⟨"", "", "", 0⟩

/-- Hydrate one raw row: for each target in the projection, slice the
relevant raw columns (four per entity) and instantiate the entity, each
instantiation drawing a fresh object id. -/
def hydrateRow (alloc : Nat) (shapes : List EntityShape) (raw : List Cell) :
    List HObj × Nat :=
  match shapes with
  | [] => ([], alloc)
  | _ :: rest =>
    let obj : HObj := ⟨alloc, hydrateEntity raw⟩
    let (os, a) := hydrateRow (alloc + 1) rest (raw.drop 4)
    (obj :: os, a)

/-- Hydrate every raw row independently, threading the allocator: no cache,
no lookup, each row produces brand-new objects. -/
def instancesRows (alloc : Nat) (shapes : List EntityShape) (rows : List (List Cell)) :
    List (List HObj) × Nat :=
  match rows with
  | [] => ([], alloc)
  | r :: rs =>
    let (os, a1) := hydrateRow alloc shapes r
    let (rest, a2) := instancesRows a1 shapes rs
    (os :: rest, a2)

/-- The `QueryContext` handed to the Row Hydrator: carries the compile state
describing the projection (`naked_sqla/om/context.py` analogue of
`naked_sqla/context.py`). -/
structure QueryContext where
  compile_state : FromCtx
deriving DecidableEq, Repr

/-- Modelled from the spec: the Row Hydrator `instances` lives in
`naked_sqla/om/loading.py` / `naked_sqla/loading.py`, which are not present
under `src/`.  Per the spec (section 4.3): for each row, for each target in
the projection, slice the relevant raw columns and instantiate the
corresponding entity type; no identity cache keyed by primary key — every
invocation produces new, independent objects. -/
def instances (alloc : Nat) (result : RawResult) (querycontext : QueryContext) :
    List (List HObj) × Nat :=
  instancesRows alloc querycontext.compile_state.shapes result.rows

/-- What `Session.execute` hands back: either the raw cursor result
(pass-through) or the hydrated row stream produced by `instances`. -/
inductive SessionResult where
  | raw (result : RawResult)
  | hydrated (rows : List (List HObj))
deriving DecidableEq, Repr

/-- SQLAlchemy `Result.tuples()`: a typing-level reshaping; the row stream is
unchanged. -/
def SessionResult.tuples (r : SessionResult) : SessionResult := r

/-- The view produced by SQLAlchemy `Result.scalars()`. -/
inductive ScalarsView where
  | raw (cells : List (Option Cell))
  | hydrated (objs : List (Option HObj))
deriving DecidableEq, Repr

/-- SQLAlchemy `Result.scalars()`: keep only the first element of each row. -/
def SessionResult.scalars : SessionResult → ScalarsView
  | .raw result => .raw (result.rows.map List.head?)
  | .hydrated rows => .hydrated (rows.map List.head?)

/-- Errors raised by this layer. `invalidSessionState current expected` is
`InvalidSessionState` of `naked_sqla/om/asession.py`; `alreadyClosed` is the
plain `Exception("Session is already closed")` of `naked_sqla/om/session.py`
and `naked_sqla/session.py`; `assertNeverFail` is `assert_never`'s runtime
failure; `attributeError` models the crash of the root mutation path when
`from_statement_ctx` is `None`. -/
inductive SessErr where
  | invalidSessionState (current : String) (expected : String)
  | alreadyClosed
  | connErr (e : ConnErr)
  | assertNeverFail
  | attributeError
deriving DecidableEq, Repr

namespace bulk_persistent

/-- `naked_sqla/om/bulk_persistent.py::_return_orm_returning`: if the compile
state has a `from_statement_ctx` whose compile options are not star, build a
`QueryContext` from it and hydrate via `instances`; otherwise return the raw
result.  The allocator is passed/returned explicitly (embedding artifact for
object identity). -/
def _return_orm_returning (alloc : Nat) (result : RawResult) (_statement : Statement) :
    SessionResult × Nat :=
  let compile_state := result.compiled
  match compile_state.from_statement_ctx with
  | some ctx =>
    if ctx._is_star then (.raw result, alloc)
    else
      let querycontext : QueryContext := ⟨ctx⟩
      let (rows, a) := instances alloc result querycontext
      (.hydrated rows, a)
  | none => (.raw result, alloc)

/-- `naked_sqla/om/bulk_persistent.py::orm_execute_statement` (async). -/
def orm_execute_statement (conn : Conn) (statement : Statement) :
    SessionResult × Conn :=
  let (conn, result) := conn.execute statement
  if !statement._returning then (.raw result, conn)
  else
    let (res, a) := _return_orm_returning conn.alloc result statement
    (res, { conn with alloc := a })

/-- `naked_sqla/om/bulk_persistent.py::sync_orm_execute_statement`. -/
def sync_orm_execute_statement (conn : Conn) (statement : Statement) :
    SessionResult × Conn :=
  let (conn, result) := conn.execute statement
  if !statement._returning then (.raw result, conn)
  else
    let (res, a) := _return_orm_returning conn.alloc result statement
    (res, { conn with alloc := a })

end bulk_persistent

namespace omcontext

/-- Modelled from the spec: `naked_sqla/om/context.py` is not present under
`src/`; this follows its sibling `naked_sqla/context.py` (under `src/`) and
spec section 4.3 — execute, take the compile state off the result, build a
`QueryContext` from it, hydrate every row via `instances`. -/
def orm_execute_statement (conn : Conn) (statement : Statement) :
    SessionResult × Conn :=
  let (conn, result) := conn.execute statement
  let compile_state := result.compiled
  let querycontext : QueryContext := ⟨⟨false, compile_state.compile_state_shapes⟩⟩
  let (rows, a) := instances conn.alloc result querycontext
  (.hydrated rows, { conn with alloc := a })

/-- Modelled from the spec: sync twin of `orm_execute_statement`
(`naked_sqla/om/context.py`, not present under `src/`). -/
def sync_orm_execute_statement (conn : Conn) (statement : Statement) :
    SessionResult × Conn :=
  let (conn, result) := conn.execute statement
  let compile_state := result.compiled
  let querycontext : QueryContext := ⟨⟨false, compile_state.compile_state_shapes⟩⟩
  let (rows, a) := instances conn.alloc result querycontext
  (.hydrated rows, { conn with alloc := a })

end omcontext

/-- `naked_sqla/om/session.py::Session`: one connection plus the state field,
a string that is `"open"` or `"closed"`. -/
structure Session where
  conn : Conn
  state : String := "open"
deriving DecidableEq, Repr

/-- `Session.commit`: on a closed session raise the plain already-closed
exception; otherwise commit the connection and only then set the state to
closed (an exception from `conn.commit()` propagates with the state
unchanged). -/
def Session.commit (s : Session) : Except SessErr Unit × Session :=
  if s.state == "closed" then (.error .alreadyClosed, s)
  else if s.state == "open" then
    match s.conn.commit with
    | (.error e, c) => (.error (.connErr e), { s with conn := c })
    | (.ok _, c) => (.ok (), { s with conn := c, state := "closed" })
  else (.error .assertNeverFail, s)

/-- `Session.rollback`: symmetric to `Session.commit`. -/
def Session.rollback (s : Session) : Except SessErr Unit × Session :=
  if s.state == "closed" then (.error .alreadyClosed, s)
  else if s.state == "open" then
    match s.conn.rollback with
    | (.error e, c) => (.error (.connErr e), { s with conn := c })
    | (.ok _, c) => (.ok (), { s with conn := c, state := "closed" })
  else (.error .assertNeverFail, s)

/-- `Session.execute`: the `isinstance` chain — Insert/Update/Delete go to
`bulk_persistent.sync_orm_execute_statement`, any other `Executable` goes to
the generic context path, anything else hits `assert_never`.  There is no
check of `self.state`. -/
def Session.execute (s : Session) (statement : Statement) :
    Except SessErr SessionResult × Session :=
  if statement.cls == StmtClass.insertC || statement.cls == StmtClass.updateC
      || statement.cls == StmtClass.deleteC then
    let (r, conn) := bulk_persistent.sync_orm_execute_statement s.conn statement
    (.ok r, { s with conn := conn })
  else if statement.isExecutable then
    let (r, conn) := omcontext.sync_orm_execute_statement s.conn statement
    (.ok r, { s with conn := conn })
  else
    (.error .assertNeverFail, s)

/-- `Session.tuples`: `self.execute(...)` then `.tuples()` on its result. -/
def Session.tuples (s : Session) (statement : Statement) :
    Except SessErr SessionResult × Session :=
  let (r, s) := s.execute statement
  (r.map SessionResult.tuples, s)

/-- `Session.scalars`: `self.execute(...)` then `.scalars()` on its result. -/
def Session.scalars (s : Session) (statement : Statement) :
    Except SessErr ScalarsView × Session :=
  let (r, s) := s.execute statement
  (r.map SessionResult.scalars, s)

/-- `naked_sqla/om/asession.py::AsyncSession`. -/
structure AsyncSession where
  conn : Conn
  state : String := "open"
deriving DecidableEq, Repr

/-- `AsyncSession.commit`: on a closed session raise
`InvalidSessionState(self.state, "open")`; otherwise commit the connection
and only then close the session. -/
def AsyncSession.commit (s : AsyncSession) : Except SessErr Unit × AsyncSession :=
  if s.state == "closed" then (.error (.invalidSessionState s.state "open"), s)
  else if s.state == "open" then
    match s.conn.commit with
    | (.error e, c) => (.error (.connErr e), { s with conn := c })
    | (.ok _, c) => (.ok (), { s with conn := c, state := "closed" })
  else (.error .assertNeverFail, s)

/-- `AsyncSession.rollback`: symmetric to `AsyncSession.commit`. -/
def AsyncSession.rollback (s : AsyncSession) : Except SessErr Unit × AsyncSession :=
  if s.state == "closed" then (.error (.invalidSessionState s.state "open"), s)
  else if s.state == "open" then
    match s.conn.rollback with
    | (.error e, c) => (.error (.connErr e), { s with conn := c })
    | (.ok _, c) => (.ok (), { s with conn := c, state := "closed" })
  else (.error .assertNeverFail, s)

/-- `AsyncSession.execute`: same `isinstance` chain as the sync session,
routed to the async executors; no check of `self.state`. -/
def AsyncSession.execute (s : AsyncSession) (statement : Statement) :
    Except SessErr SessionResult × AsyncSession :=
  if statement.cls == StmtClass.insertC || statement.cls == StmtClass.updateC
      || statement.cls == StmtClass.deleteC then
    let (r, conn) := bulk_persistent.orm_execute_statement s.conn statement
    (.ok r, { s with conn := conn })
  else if statement.isExecutable then
    let (r, conn) := omcontext.orm_execute_statement s.conn statement
    (.ok r, { s with conn := conn })
  else
    (.error .assertNeverFail, s)

/-- `AsyncSession.tuples`: `await self.execute(...)` then `.tuples()`. -/
def AsyncSession.tuples (s : AsyncSession) (statement : Statement) :
    Except SessErr SessionResult × AsyncSession :=
  let (r, s) := s.execute statement
  (r.map SessionResult.tuples, s)

/-- `AsyncSession.scalars`: `await self.execute(...)` then `.scalars()`. -/
def AsyncSession.scalars (s : AsyncSession) (statement : Statement) :
    Except SessErr ScalarsView × AsyncSession :=
  let (r, s) := s.execute statement
  (r.map SessionResult.scalars, s)

namespace rootbp

/-- `naked_sqla/bulk_persistent.py::_return_orm_returning`: the root-level
mutation path hydrates the RETURNING rows unconditionally — it reads
`compile_state.from_statement_ctx` with no star check; a missing
`from_statement_ctx` crashes inside the hydrator (`attributeError`). -/
def _return_orm_returning (alloc : Nat) (result : RawResult) (_statement : Statement) :
    Except SessErr SessionResult × Nat :=
  match result.compiled.from_statement_ctx with
  | some ctx =>
    let querycontext : QueryContext := ⟨ctx⟩
    let (rows, a) := instances alloc result querycontext
    (.ok (.hydrated rows), a)
  | none => (.error .attributeError, alloc)

/-- `naked_sqla/bulk_persistent.py::orm_execute_statement`. -/
def orm_execute_statement (conn : Conn) (statement : Statement) :
    Except SessErr SessionResult × Conn :=
  let (conn, result) := conn.execute statement
  if !statement._returning then (.ok (.raw result), conn)
  else
    let (res, a) := _return_orm_returning conn.alloc result statement
    (res, { conn with alloc := a })

end rootbp

namespace rootcontext

/-- `naked_sqla/context.py::orm_execute_statement`: execute, take the compile
state off the result, build a `QueryContext`, hydrate via `instances`. -/
def orm_execute_statement (conn : Conn) (statement : Statement) :
    SessionResult × Conn :=
  let (conn, result) := conn.execute statement
  let compile_state := result.compiled
  let querycontext : QueryContext := ⟨⟨false, compile_state.compile_state_shapes⟩⟩
  let (rows, a) := instances conn.alloc result querycontext
  (.hydrated rows, { conn with alloc := a })

end rootcontext

namespace rootsession

/-- `naked_sqla/session.py::AsyncSession` (the root-level legacy session). -/
structure AsyncSession where
  conn : Conn
  state : String := "open"
deriving DecidableEq, Repr

/-- `naked_sqla/session.py::AsyncSession.execute`: the `match`/`case` chain —
`case dml.Insert() | dml.Update() | dml.Delete()` to the root mutation path,
`case Executable()` to the root context path, `case _` to `assert_never`. -/
def AsyncSession.execute (s : AsyncSession) (statement : Statement) :
    Except SessErr SessionResult × AsyncSession :=
  if statement.cls == StmtClass.insertC || statement.cls == StmtClass.updateC
      || statement.cls == StmtClass.deleteC then
    let (r, conn) := rootbp.orm_execute_statement s.conn statement
    (r, { s with conn := conn })
  else if statement.isExecutable then
    let (r, conn) := rootcontext.orm_execute_statement s.conn statement
    (.ok r, { s with conn := conn })
  else
    (.error .assertNeverFail, s)

end rootsession

/-- How the scoped `begin()` block exited: the caller's code finished
normally, or it raised. -/
inductive Outcome where
  | normal
  | raised
deriving DecidableEq, Repr

/-- What the caller did to the yielded session inside the block: nothing, or
an explicit `session.commit()`, or an explicit `session.rollback()`. -/
inductive BodyAct where
  | idle
  | committed
  | rolledBack
deriving DecidableEq, Repr

/-- Effect of the caller's finalization on the yielded sync session. -/
def runBody (act : BodyAct) (s : Session) : Session :=
  match act with
  | .idle => s
  | .committed => (s.commit).2
  | .rolledBack => (s.rollback).2

/-- Effect of the caller's finalization on the yielded async session. -/
def runBodyAsync (act : BodyAct) (s : AsyncSession) : AsyncSession :=
  match act with
  | .idle => s
  | .committed => (s.commit).2
  | .rolledBack => (s.rollback).2

/-- Exit behavior of the external `engine.begin()` scope (SQLAlchemy's own
transaction context, wrapping this layer's `begin`): on normal completion it
commits the transaction if still active; if an exception propagates through
it, it rolls back if still active. -/
def engineExit (out : Outcome) (c : Conn) : Conn :=
  match out with
  | .normal => if c.inTx then (c.commit).2 else c
  | .raised => if c.inTx then (c.rollback).2 else c

/-- `naked_sqla/om/session.py::SessionFactory`: the engine (here: the initial
database contents) plus the `auto_commit` flag. -/
structure SessionFactory where
  db : List EventRow
  auto_commit : Bool := true
deriving DecidableEq, Repr

/-- `SessionFactory.begin`: open a fresh connection/transaction, yield a new
`Session` over it; after the caller's block (summarized by `act`/`out`):
on normal exit commit if `auto_commit`, else roll back if the connection is
still in a transaction; on exceptional exit roll back if `auto_commit` and
re-raise.  The surrounding `with self.engine.begin()` exit runs last.
Driver-level commit/rollback failures are not injected here.  Returns the
propagated outcome and the final connection. -/
def SessionFactory.begin (f : SessionFactory) (act : BodyAct) (out : Outcome) :
    Outcome × Conn :=
  let conn : Conn := { db := f.db }
  let s := runBody act (Session.mk conn "open")
  match out with
  | .normal =>
    if f.auto_commit then (.normal, engineExit .normal (s.conn.commit).2)
    else
      if s.conn.in_transaction then (.normal, engineExit .normal (s.conn.rollback).2)
      else (.normal, engineExit .normal s.conn)
  | .raised =>
    if f.auto_commit then (.raised, engineExit .raised (s.conn.rollback).2)
    else (.raised, engineExit .raised s.conn)

/-- `naked_sqla/om/asession.py::AsyncSessionFactory`. -/
structure AsyncSessionFactory where
  db : List EventRow
  auto_commit : Bool := true
deriving DecidableEq, Repr

/-- `AsyncSessionFactory.begin`: same scope logic as the sync factory, over
an `AsyncSession`. -/
def AsyncSessionFactory.begin (f : AsyncSessionFactory) (act : BodyAct) (out : Outcome) :
    Outcome × Conn :=
  let conn : Conn := { db := f.db }
  let s := runBodyAsync act (AsyncSession.mk conn "open")
  match out with
  | .normal =>
    if f.auto_commit then (.normal, engineExit .normal (s.conn.commit).2)
    else
      if s.conn.in_transaction then (.normal, engineExit .normal (s.conn.rollback).2)
      else (.normal, engineExit .normal s.conn)
  | .raised =>
    if f.auto_commit then (.raised, engineExit .raised (s.conn.rollback).2)
    else (.raised, engineExit .raised s.conn)

/-! ### Fixtures and helper lemmas -/

/-- The compiled projection of `...returning(Event)` / `select(Event)`. -/
def eventCtx : FromCtx := ⟨false, [EntityShape.eventEntity]⟩

/-- The update statement of `complicated_update_scenario`:
`sa.update(Event).where(Event.id.in_(event_query)).values(event="2").returning(Event)`. -/
def updateLeadStmt : Statement :=
  { cls := .updateC, _returning := true,
    compiled := ⟨some eventCtx, [EntityShape.eventEntity]⟩, sem := .updateLead }

/-- `sa.select(Event)`. -/
def selectAllStmt : Statement :=
  { cls := .selectC, _returning := false,
    compiled := ⟨none, [EntityShape.eventEntity]⟩, sem := .selectAll }

/-- A two-entity join select in the shape of `test_multi_select`:
`sa.select(E1, E2).join(...)`. -/
def joinStmt : Statement :=
  { cls := .selectC, _returning := false,
    compiled := ⟨none, [EntityShape.eventEntity, EntityShape.eventEntity]⟩,
    sem := .selectJoinSelf }

/-- A value that is not an `Executable` at all. -/
def nonExecStmt : Statement :=
  { cls := .nonExecutableC, _returning := false, compiled := ⟨none, []⟩, sem := .noRows }

/-- An `INSERT ... RETURNING *`-style statement: the compiled returning
projection is a star with no explicit column mapping. -/
def starInsertStmt : Statement :=
  { cls := .insertC, _returning := true,
    compiled := ⟨some ⟨true, []⟩, []⟩, sem := .insertEvents [] }

theorem Conn.execute_trips (c : Conn) (st : Statement) :
    ((c.execute st).1).trips = c.trips + 1 := by
  cases hs : st.sem <;> simp [Conn.execute, hs]

theorem Conn.execute_alloc (c : Conn) (st : Statement) :
    ((c.execute st).1).alloc = c.alloc := by
  cases hs : st.sem <;> simp [Conn.execute, hs]

theorem Conn.execute_compiled (c : Conn) (st : Statement) :
    ((c.execute st).2).compiled = st.compiled := by
  cases hs : st.sem <;> simp [Conn.execute, hs]

theorem instancesRows_length (shapes : List EntityShape) (rows : List (List Cell)) :
    ∀ a : Nat, (instancesRows a shapes rows).1.length = rows.length := by
  induction rows with
  | nil => intro a; simp [instancesRows]
  | cons r rs ih => intro a; simp [instancesRows, ih]

theorem instancesRows_alloc_single (rows : List (List Cell)) :
    ∀ a : Nat, (instancesRows a [EntityShape.eventEntity] rows).2 = a + rows.length := by
  induction rows with
  | nil => intro a; simp [instancesRows]
  | cons r rs ih => intro a; simp [instancesRows, hydrateRow, ih]; omega

theorem instancesRows_get_single (rows : List (List Cell)) :
    ∀ (a k : Nat) (r : List Cell), rows[k]? = some r →
      (instancesRows a [EntityShape.eventEntity] rows).1[k]? =
        some [⟨a + k, hydrateEntity r⟩] := by
  induction rows with
  | nil => intro a k r h; simp at h
  | cons x xs ih =>
    intro a k r h
    cases k with
    | zero =>
      simp at h
      simp [instancesRows, hydrateRow, h]
    | succ k =>
      simp at h
      have := ih (a + 1) k r h
      simpa [instancesRows, hydrateRow, Nat.add_assoc, Nat.add_comm, Nat.add_left_comm]
        using this

/-- C2: the Row Hydrator keeps no identity cache keyed by primary key.  For a
single-entity projection over any result set: every row position yields a
brand-new object; two positions `i ≠ j` — in particular two rows carrying the
same primary-key value — give objects with distinct identities, with equal
attribute values whenever the raw rows are equal; the result has exactly one
output row per input row (nothing merged or deduplicated); and a second
invocation of `instancesRows` (a later result set, the allocator having moved
on) yields objects distinct from all of the first invocation's. -/
theorem c2_no_identity_cache
    (a : Nat) (rows rows2 : List (List Cell)) (i j : Nat) (ri rj : List Cell)
    (hij : i ≠ j) (hri : rows[i]? = some ri) (hrj : rows[j]? = some rj) :
    ∃ oi oj : HObj,
      (instancesRows a [EntityShape.eventEntity] rows).1[i]? = some [oi] ∧
      (instancesRows a [EntityShape.eventEntity] rows).1[j]? = some [oj] ∧
      oi.objId ≠ oj.objId ∧
      (ri = rj → oi.entity = oj.entity) ∧
      (instancesRows a [EntityShape.eventEntity] rows).1.length = rows.length ∧
      (∀ (k : Nat) (rk : List Cell), rows2[k]? = some rk →
        ∃ ok : HObj,
          (instancesRows (instancesRows a [EntityShape.eventEntity] rows).2
              [EntityShape.eventEntity] rows2).1[k]? = some [ok] ∧
          ok.objId ≠ oi.objId ∧ ok.objId ≠ oj.objId ∧
          (rk = ri → ok.entity = oi.entity)) := by
  have hi : i < rows.length := by
    by_contra hlt
    rw [List.getElem?_eq_none (by omega)] at hri
    exact Option.noConfusion hri
  have hj : j < rows.length := by
    by_contra hlt
    rw [List.getElem?_eq_none (by omega)] at hrj
    exact Option.noConfusion hrj
  refine ⟨⟨a + i, hydrateEntity ri⟩, ⟨a + j, hydrateEntity rj⟩,
    instancesRows_get_single rows a i ri hri,
    instancesRows_get_single rows a j rj hrj, by simpa using (by omega : a + i ≠ a + j),
    fun h => by rw [h], instancesRows_length _ rows a, ?_⟩
  intro k rk hrk
  refine ⟨⟨(instancesRows a [EntityShape.eventEntity] rows).2 + k, hydrateEntity rk⟩,
    instancesRows_get_single rows2 _ k rk hrk, ?_, ?_, fun h => by rw [h]⟩
  · simp [instancesRows_alloc_single rows a]; omega
  · simp [instancesRows_alloc_single rows a]; omega

/-- C2 witness: two rows with the same primary-key value in one result set,
and one more row in a later result set. -/
theorem c2_no_identity_cache_witness :
    (0 : Nat) ≠ 1 ∧
    ([[Cell.str "k"], [Cell.str "k"]] : List (List Cell))[0]? = some [Cell.str "k"] ∧
    ([[Cell.str "k"], [Cell.str "k"]] : List (List Cell))[1]? = some [Cell.str "k"] ∧
    (∃ oi oj : HObj,
      (instancesRows 7 [EntityShape.eventEntity] [[Cell.str "k"], [Cell.str "k"]]).1[0]? =
        some [oi] ∧
      (instancesRows 7 [EntityShape.eventEntity] [[Cell.str "k"], [Cell.str "k"]]).1[1]? =
        some [oj] ∧
      oi.objId ≠ oj.objId ∧
      ([Cell.str "k"] = [Cell.str "k"] → oi.entity = oj.entity) ∧
      (instancesRows 7 [EntityShape.eventEntity]
          [[Cell.str "k"], [Cell.str "k"]]).1.length =
        ([[Cell.str "k"], [Cell.str "k"]] : List (List Cell)).length ∧
      (∀ (k : Nat) (rk : List Cell), ([[Cell.str "k"]] : List (List Cell))[k]? = some rk →
        ∃ ok : HObj,
          (instancesRows
              (instancesRows 7 [EntityShape.eventEntity]
                [[Cell.str "k"], [Cell.str "k"]]).2
              [EntityShape.eventEntity] [[Cell.str "k"]]).1[k]? = some [ok] ∧
          ok.objId ≠ oi.objId ∧ ok.objId ≠ oj.objId ∧
          (rk = [Cell.str "k"] → ok.entity = oi.entity))) :=
  ⟨by decide, by decide, by decide,
    c2_no_identity_cache 7 [[Cell.str "k"], [Cell.str "k"]] [[Cell.str "k"]] 0 1
      [Cell.str "k"] [Cell.str "k"] (by decide) (by decide) (by decide)⟩

/-- C6: a mutation statement without RETURNING returns the raw result handle
of the execution unchanged, on the sync and on the async mutation path; the
allocator is untouched, i.e. no object is hydrated and no `QueryContext` is
built. -/
theorem c6_no_returning_raw_passthrough (conn : Conn) (st : Statement)
    (h : st._returning = false) :
    bulk_persistent.sync_orm_execute_statement conn st =
      (SessionResult.raw (conn.execute st).2, (conn.execute st).1) ∧
    bulk_persistent.orm_execute_statement conn st =
      (SessionResult.raw (conn.execute st).2, (conn.execute st).1) ∧
    ((conn.execute st).1).alloc = conn.alloc := by
  refine ⟨?_, ?_, Conn.execute_alloc conn st⟩ <;>
    simp [bulk_persistent.sync_orm_execute_statement,
      bulk_persistent.orm_execute_statement, h]

/-- C6 witness: an UPDATE without RETURNING on a concrete connection. -/
theorem c6_no_returning_raw_passthrough_witness :
    ({ updateLeadStmt with _returning := false } : Statement)._returning = false ∧
    bulk_persistent.sync_orm_execute_statement { db := [] }
        { updateLeadStmt with _returning := false } =
      (SessionResult.raw
        (Conn.execute { db := [] } { updateLeadStmt with _returning := false }).2,
       (Conn.execute { db := [] } { updateLeadStmt with _returning := false }).1) :=
  ⟨rfl, (c6_no_returning_raw_passthrough { db := [] }
    { updateLeadStmt with _returning := false } rfl).1⟩

/-- C7: a mutation statement with RETURNING whose compiled projection is a
star (absent `from_statement_ctx`, or compile options marked star) skips
hydration: the mutation executor returns the raw unhydrated result, with no
error and the allocator untouched. -/
theorem c7_star_returning_degrades (conn : Conn) (st : Statement)
    (hret : st._returning = true)
    (hstar : st.compiled.from_statement_ctx = none ∨
      ∃ ctx, st.compiled.from_statement_ctx = some ctx ∧ ctx._is_star = true) :
    bulk_persistent.sync_orm_execute_statement conn st =
      (SessionResult.raw (conn.execute st).2, (conn.execute st).1) ∧
    bulk_persistent.orm_execute_statement conn st =
      (SessionResult.raw (conn.execute st).2, (conn.execute st).1) := by
  have hcomp : ((conn.execute st).2).compiled = st.compiled := Conn.execute_compiled conn st
  rcases hstar with hnone | ⟨ctx, hctx, hstar⟩
  · constructor <;>
      simp [bulk_persistent.sync_orm_execute_statement,
        bulk_persistent.orm_execute_statement, bulk_persistent._return_orm_returning,
        hret, hcomp, hnone]
  · constructor <;>
      simp [bulk_persistent.sync_orm_execute_statement,
        bulk_persistent.orm_execute_statement, bulk_persistent._return_orm_returning,
        hret, hcomp, hctx, hstar]

/-- C7 witness: `INSERT ... RETURNING *` on a concrete connection. -/
theorem c7_star_returning_degrades_witness :
    starInsertStmt._returning = true ∧
    bulk_persistent.sync_orm_execute_statement { db := [] } starInsertStmt =
      (SessionResult.raw (Conn.execute { db := [] } starInsertStmt).2,
       (Conn.execute { db := [] } starInsertStmt).1) :=
  ⟨rfl, (c7_star_returning_degrades { db := [] } starInsertStmt rfl
    (Or.inr ⟨⟨true, []⟩, rfl, rfl⟩)).1⟩

/-- C1: executing the window-function (lead) UPDATE with RETURNING through
`Session.execute` performs the round trip and hydrates the returned rows from
the statement's own compiled returning projection, so they carry post-update
database values.  On the two-row table `(id="1",event="1",t=t0)`,
`(id="2",event="2",t=t1)` with `t0 < t1` it returns exactly one row, whose
`event` is `"2"` (the updated row `id="1"`) — not the pre-update `"1"` and
not zero rows — and the database afterwards holds the updated row. -/
theorem c1_returning_reflects_post_update (t0 t1 : Nat) (h : t0 < t1) :
    (Session.execute { conn := { db := [⟨"1", "a", "1", t0⟩, ⟨"2", "a", "2", t1⟩] } }
        updateLeadStmt).1 =
      Except.ok (SessionResult.hydrated [[⟨0, ⟨"1", "a", "2", t0⟩⟩]]) ∧
    ((Session.execute { conn := { db := [⟨"1", "a", "1", t0⟩, ⟨"2", "a", "2", t1⟩] } }
        updateLeadStmt).2).conn.db =
      [⟨"1", "a", "2", t0⟩, ⟨"2", "a", "2", t1⟩] ∧
    ((Session.execute { conn := { db := [⟨"1", "a", "1", t0⟩, ⟨"2", "a", "2", t1⟩] } }
        updateLeadStmt).2).conn.trips = 1 ∧
    (AsyncSession.execute
        { conn := { db := [⟨"1", "a", "1", t0⟩, ⟨"2", "a", "2", t1⟩] } }
        updateLeadStmt).1 =
      Except.ok (SessionResult.hydrated [[⟨0, ⟨"1", "a", "2", t0⟩⟩]]) := by
  have d1 : decide (t0 < t1) = true := decide_eq_true h
  have d2 : decide (t0 < t0) = false := decide_eq_false (Nat.lt_irrefl t0)
  have d3 : decide (t1 < t0) = false := decide_eq_false (fun hlt => Nat.lt_asymm h hlt)
  have d4 : decide (t1 < t1) = false := decide_eq_false (Nat.lt_irrefl t1)
  refine ⟨?_, ?_, ?_, ?_⟩ <;>
    simp [Session.execute, AsyncSession.execute, updateLeadStmt,
      bulk_persistent.sync_orm_execute_statement, bulk_persistent.orm_execute_statement,
      Conn.execute, applyLeadUpdate, leadUpdateReturning, leadEvent, laterRows,
      minByCreatedAt, List.filter, bulk_persistent._return_orm_returning, instances,
      instancesRows, hydrateRow, hydrateEntity, eventCtx, EventRow.toRaw,
      d1, d2, d3, d4]

/-- C1 witness at `t0 = 0`, `t1 = 1`. -/
theorem c1_returning_reflects_post_update_witness :
    0 < 1 ∧
    (Session.execute { conn := { db := [⟨"1", "a", "1", 0⟩, ⟨"2", "a", "2", 1⟩] } }
        updateLeadStmt).1 =
      Except.ok (SessionResult.hydrated [[⟨0, ⟨"1", "a", "2", 0⟩⟩]]) :=
  ⟨by decide, (c1_returning_reflects_post_update 0 1 (by decide)).1⟩

theorem Session.sync_execute_state (s : Session) (st : Statement) :
    ((s.execute st).2).state = s.state := by
  unfold Session.execute
  split
  · rfl
  · split <;> rfl

theorem AsyncSession.async_execute_state (s : AsyncSession) (st : Statement) :
    ((s.execute st).2).state = s.state := by
  unfold AsyncSession.execute
  split
  · rfl
  · split <;> rfl

theorem Session.sync_commit_closed (s : Session) (h : s.state = "closed") :
    s.commit = (.error .alreadyClosed, s) := by
  unfold Session.commit
  rw [h]
  rfl

theorem Session.sync_rollback_closed (s : Session) (h : s.state = "closed") :
    s.rollback = (.error .alreadyClosed, s) := by
  unfold Session.rollback
  rw [h]
  rfl

theorem AsyncSession.async_commit_closed (s : AsyncSession) (h : s.state = "closed") :
    s.commit = (.error (.invalidSessionState "closed" "open"), s) := by
  unfold AsyncSession.commit
  rw [h]
  rfl

theorem AsyncSession.async_rollback_closed (s : AsyncSession) (h : s.state = "closed") :
    s.rollback = (.error (.invalidSessionState "closed" "open"), s) := by
  unfold AsyncSession.rollback
  rw [h]
  rfl

theorem Session.sync_commit_state_or (s : Session) :
    ((s.commit).2).state = s.state ∨ ((s.commit).2).state = "closed" := by
  unfold Session.commit
  by_cases h1 : s.state = "closed"
  · simp [h1]
  · by_cases h2 : s.state = "open"
    · rcases hc : s.conn.commit with ⟨r, c⟩
      cases r <;> simp [h1, h2, hc]
    · simp [h1, h2]

theorem Session.sync_rollback_state_or (s : Session) :
    ((s.rollback).2).state = s.state ∨ ((s.rollback).2).state = "closed" := by
  unfold Session.rollback
  by_cases h1 : s.state = "closed"
  · simp [h1]
  · by_cases h2 : s.state = "open"
    · rcases hc : s.conn.rollback with ⟨r, c⟩
      cases r <;> simp [h1, h2, hc]
    · simp [h1, h2]

theorem AsyncSession.async_commit_state_or (s : AsyncSession) :
    ((s.commit).2).state = s.state ∨ ((s.commit).2).state = "closed" := by
  unfold AsyncSession.commit
  by_cases h1 : s.state = "closed"
  · simp [h1]
  · by_cases h2 : s.state = "open"
    · rcases hc : s.conn.commit with ⟨r, c⟩
      cases r <;> simp [h1, h2, hc]
    · simp [h1, h2]

theorem AsyncSession.async_rollback_state_or (s : AsyncSession) :
    ((s.rollback).2).state = s.state ∨ ((s.rollback).2).state = "closed" := by
  unfold AsyncSession.rollback
  by_cases h1 : s.state = "closed"
  · simp [h1]
  · by_cases h2 : s.state = "open"
    · rcases hc : s.conn.rollback with ⟨r, c⟩
      cases r <;> simp [h1, h2, hc]
    · simp [h1, h2]

theorem Session.sync_commit_ok_closed (s : Session) (h : (s.commit).1 = .ok ()) :
    ((s.commit).2).state = "closed" := by
  unfold Session.commit at h ⊢
  by_cases h1 : s.state = "closed"
  · simp [h1] at h
  · by_cases h2 : s.state = "open"
    · rcases hc : s.conn.commit with ⟨r, c⟩
      cases r <;> simp [h1, h2, hc] at h ⊢
    · simp [h1, h2] at h

theorem Session.sync_rollback_ok_closed (s : Session) (h : (s.rollback).1 = .ok ()) :
    ((s.rollback).2).state = "closed" := by
  unfold Session.rollback at h ⊢
  by_cases h1 : s.state = "closed"
  · simp [h1] at h
  · by_cases h2 : s.state = "open"
    · rcases hc : s.conn.rollback with ⟨r, c⟩
      cases r <;> simp [h1, h2, hc] at h ⊢
    · simp [h1, h2] at h

theorem AsyncSession.async_commit_ok_closed (s : AsyncSession) (h : (s.commit).1 = .ok ()) :
    ((s.commit).2).state = "closed" := by
  unfold AsyncSession.commit at h ⊢
  by_cases h1 : s.state = "closed"
  · simp [h1] at h
  · by_cases h2 : s.state = "open"
    · rcases hc : s.conn.commit with ⟨r, c⟩
      cases r <;> simp [h1, h2, hc] at h ⊢
    · simp [h1, h2] at h

theorem AsyncSession.async_rollback_ok_closed (s : AsyncSession) (h : (s.rollback).1 = .ok ()) :
    ((s.rollback).2).state = "closed" := by
  unfold AsyncSession.rollback at h ⊢
  by_cases h1 : s.state = "closed"
  · simp [h1] at h
  · by_cases h2 : s.state = "open"
    · rcases hc : s.conn.rollback with ⟨r, c⟩
      cases r <;> simp [h1, h2, hc] at h ⊢
    · simp [h1, h2] at h

/-- C3 counterexample: the claim requires every subsequent mutating operation
on a closed session — `execute()` included — to fail with an invalid-state
error; but `execute` performs no state check, so on a closed session (sync
and async) it runs the statement and returns a result instead of failing. -/
theorem c3_closed_execute_succeeds :
    (AsyncSession.execute { conn := { db := [] }, state := "closed" } selectAllStmt).1 =
      Except.ok (SessionResult.hydrated []) ∧
    (Session.execute { conn := { db := [] }, state := "closed" } selectAllStmt).1 =
      Except.ok (SessionResult.hydrated []) := by
  constructor <;> rfl

/-- C3 (amended): the state field only ever moves from `"open"` to
`"closed"`, never backward: `execute` never changes it, a successful
`commit`/`rollback` sets it to `"closed"`, and on an already-closed session
`commit()` and `rollback()` fail — the async session with the invalid-state
error naming the current (`"closed"`) and expected (`"open"`) state, the sync
session with the generic already-closed error — leaving the session
unchanged; `execute()`, however, performs no state check and is forwarded to
the connection regardless of session state. -/
theorem c3_amended_lifecycle (s : Session) (sa : AsyncSession) (st : Statement) :
    ((s.execute st).2).state = s.state ∧
    ((sa.execute st).2).state = sa.state ∧
    (s.state = "closed" → s.commit = (.error .alreadyClosed, s)) ∧
    (s.state = "closed" → s.rollback = (.error .alreadyClosed, s)) ∧
    (sa.state = "closed" →
      sa.commit = (.error (.invalidSessionState "closed" "open"), sa)) ∧
    (sa.state = "closed" →
      sa.rollback = (.error (.invalidSessionState "closed" "open"), sa)) ∧
    ((s.commit).1 = .ok () → ((s.commit).2).state = "closed") ∧
    ((s.rollback).1 = .ok () → ((s.rollback).2).state = "closed") ∧
    ((sa.commit).1 = .ok () → ((sa.commit).2).state = "closed") ∧
    ((sa.rollback).1 = .ok () → ((sa.rollback).2).state = "closed") ∧
    (((s.commit).2).state = s.state ∨ ((s.commit).2).state = "closed") ∧
    (((s.rollback).2).state = s.state ∨ ((s.rollback).2).state = "closed") ∧
    (((sa.commit).2).state = sa.state ∨ ((sa.commit).2).state = "closed") ∧
    (((sa.rollback).2).state = sa.state ∨ ((sa.rollback).2).state = "closed") :=
  ⟨Session.sync_execute_state s st, AsyncSession.async_execute_state sa st,
    Session.sync_commit_closed s, Session.sync_rollback_closed s,
    AsyncSession.async_commit_closed sa, AsyncSession.async_rollback_closed sa,
    Session.sync_commit_ok_closed s, Session.sync_rollback_ok_closed s,
    AsyncSession.async_commit_ok_closed sa, AsyncSession.async_rollback_ok_closed sa,
    Session.sync_commit_state_or s, Session.sync_rollback_state_or s,
    AsyncSession.async_commit_state_or sa, AsyncSession.async_rollback_state_or sa⟩

/-- C3 witness: the amended lifecycle at a concrete closed sync session,
closed async session, and a concrete statement. -/
theorem c3_amended_lifecycle_witness :
    ({ conn := { db := [] }, state := "closed" } : Session).state = "closed" ∧
    (Session.commit { conn := { db := [] }, state := "closed" } =
      (.error .alreadyClosed, { conn := { db := [] }, state := "closed" })) ∧
    (AsyncSession.commit { conn := { db := [] }, state := "closed" } =
      (.error (.invalidSessionState "closed" "open"),
        { conn := { db := [] }, state := "closed" })) :=
  ⟨rfl,
    (c3_amended_lifecycle { conn := { db := [] }, state := "closed" }
      { conn := { db := [] }, state := "closed" } selectAllStmt).2.2.1 rfl,
    (c3_amended_lifecycle { conn := { db := [] }, state := "closed" }
      { conn := { db := [] }, state := "closed" } selectAllStmt).2.2.2.2.1 rfl⟩

/-- C9: `commit`/`rollback` are atomic with respect to the state field — the
state is set to `"closed"` only after the connection call returns; if the
connection call raises, the error propagates and the session state remains
`"open"`. -/
theorem c9_state_unchanged_on_conn_failure (s : Session) (sa : AsyncSession)
    (hs : s.state = "open") (hsa : sa.state = "open")
    (hc : s.conn.commitRaises = true) (hr : s.conn.rollbackRaises = true)
    (hac : sa.conn.commitRaises = true) (har : sa.conn.rollbackRaises = true) :
    (s.commit).1 = .error (.connErr .commitFailed) ∧
    ((s.commit).2).state = "open" ∧
    (s.rollback).1 = .error (.connErr .rollbackFailed) ∧
    ((s.rollback).2).state = "open" ∧
    (sa.commit).1 = .error (.connErr .commitFailed) ∧
    ((sa.commit).2).state = "open" ∧
    (sa.rollback).1 = .error (.connErr .rollbackFailed) ∧
    ((sa.rollback).2).state = "open" := by
  unfold Session.commit Session.rollback AsyncSession.commit AsyncSession.rollback
    Conn.commit Conn.rollback
  simp [hs, hsa, hc, hr, hac, har]

/-- C9 witness: a session over a connection whose driver fails both calls. -/
theorem c9_state_unchanged_on_conn_failure_witness :
    ({ conn := { db := [], commitRaises := true, rollbackRaises := true } } :
        Session).state = "open" ∧
    (Session.commit
        { conn := { db := [], commitRaises := true, rollbackRaises := true } }).1 =
      .error (.connErr .commitFailed) ∧
    ((Session.commit
        { conn := { db := [], commitRaises := true, rollbackRaises := true } }).2).state =
      "open" :=
  ⟨rfl,
    (c9_state_unchanged_on_conn_failure
      { conn := { db := [], commitRaises := true, rollbackRaises := true } }
      { conn := { db := [], commitRaises := true, rollbackRaises := true } }
      rfl rfl rfl rfl rfl rfl).1,
    (c9_state_unchanged_on_conn_failure
      { conn := { db := [], commitRaises := true, rollbackRaises := true } }
      { conn := { db := [], commitRaises := true, rollbackRaises := true } }
      rfl rfl rfl rfl rfl rfl).2.1⟩

/-- C4: `execute` classifies every statement into exactly one of three
categories: Insert/Update/Delete always routes to the mutation path, any
other `Executable` always routes to the generic ORM path, and a
non-`Executable` value fails fast with the exhaustiveness error — on all
three session classes (`om.Session`, `om.AsyncSession`, the root
`AsyncSession`); no input is silently dropped and no input takes both
paths. -/
theorem c4_execute_classification (s : Session) (sa : AsyncSession)
    (sr : rootsession.AsyncSession) (st : Statement) :
    ((st.cls = .insertC ∨ st.cls = .updateC ∨ st.cls = .deleteC) ∨
      (¬(st.cls = .insertC ∨ st.cls = .updateC ∨ st.cls = .deleteC) ∧
        st.isExecutable = true) ∨
      st.isExecutable = false) ∧
    ((st.cls = .insertC ∨ st.cls = .updateC ∨ st.cls = .deleteC) →
      st.isExecutable = true) ∧
    ((st.cls = .insertC ∨ st.cls = .updateC ∨ st.cls = .deleteC) →
      s.execute st =
        (.ok (bulk_persistent.sync_orm_execute_statement s.conn st).1,
          { s with conn := (bulk_persistent.sync_orm_execute_statement s.conn st).2 }) ∧
      sa.execute st =
        (.ok (bulk_persistent.orm_execute_statement sa.conn st).1,
          { sa with conn := (bulk_persistent.orm_execute_statement sa.conn st).2 }) ∧
      sr.execute st =
        ((rootbp.orm_execute_statement sr.conn st).1,
          { sr with conn := (rootbp.orm_execute_statement sr.conn st).2 })) ∧
    (¬(st.cls = .insertC ∨ st.cls = .updateC ∨ st.cls = .deleteC) →
      st.isExecutable = true →
      s.execute st =
        (.ok (omcontext.sync_orm_execute_statement s.conn st).1,
          { s with conn := (omcontext.sync_orm_execute_statement s.conn st).2 }) ∧
      sa.execute st =
        (.ok (omcontext.orm_execute_statement sa.conn st).1,
          { sa with conn := (omcontext.orm_execute_statement sa.conn st).2 }) ∧
      sr.execute st =
        (.ok (rootcontext.orm_execute_statement sr.conn st).1,
          { sr with conn := (rootcontext.orm_execute_statement sr.conn st).2 })) ∧
    (st.isExecutable = false →
      s.execute st = (.error .assertNeverFail, s) ∧
      sa.execute st = (.error .assertNeverFail, sa) ∧
      sr.execute st = (.error .assertNeverFail, sr)) := by
  cases hcls : st.cls <;>
    simp [Session.execute, AsyncSession.execute, rootsession.AsyncSession.execute,
      Statement.isExecutable, hcls]

/-- C4 witness: a dml statement goes to the mutation path and a
non-executable value fails fast, at concrete inputs. -/
theorem c4_execute_classification_witness :
    (updateLeadStmt.cls = .insertC ∨ updateLeadStmt.cls = .updateC ∨
      updateLeadStmt.cls = .deleteC) ∧
    nonExecStmt.isExecutable = false ∧
    (Session.execute { conn := { db := [] } } updateLeadStmt).1 =
      .ok (bulk_persistent.sync_orm_execute_statement ({ db := [] } : Conn)
        updateLeadStmt).1 ∧
    (Session.execute { conn := { db := [] } } nonExecStmt).1 =
      .error .assertNeverFail := by
  refine ⟨Or.inr (Or.inl rfl), rfl, ?_, ?_⟩
  · have h := (c4_execute_classification { conn := { db := [] } }
      { conn := { db := [] } } { conn := { db := [] } } updateLeadStmt).2.2.1
      (Or.inr (Or.inl rfl))
    rw [h.1]
  · have h := (c4_execute_classification { conn := { db := [] } }
      { conn := { db := [] } } { conn := { db := [] } } nonExecStmt).2.2.2.2 rfl
    rw [h.1]

/-- C5: finalization of the `begin()` scope, sync and async: the scope exit
commits on normal exit with `auto_commit`; rolls back on normal exit without
`auto_commit` when the transaction is still active; rolls back before the
error propagates on exceptional exit with `auto_commit`; and on every exit
path the transaction ends not-dangling (`inTx = false`). -/
theorem c5_begin_scope_finalization (f : SessionFactory) (fa : AsyncSessionFactory)
    (act : BodyAct) (out : Outcome) :
    ((f.begin act out).1 = out ∧
      (out = .normal → f.auto_commit = true →
        ((f.begin act out).2).calls =
          ((runBody act (Session.mk { db := f.db } "open")).conn).calls ++
            [ConnCall.commitCall]) ∧
      (out = .normal → f.auto_commit = false →
        ((runBody act (Session.mk { db := f.db } "open")).conn).inTx = true →
        ((f.begin act out).2).calls =
          ((runBody act (Session.mk { db := f.db } "open")).conn).calls ++
            [ConnCall.rollbackCall]) ∧
      (out = .raised → f.auto_commit = true →
        ((f.begin act out).2).calls =
          ((runBody act (Session.mk { db := f.db } "open")).conn).calls ++
            [ConnCall.rollbackCall]) ∧
      ((f.begin act out).2).inTx = false) ∧
    ((fa.begin act out).1 = out ∧
      (out = .normal → fa.auto_commit = true →
        ((fa.begin act out).2).calls =
          ((runBodyAsync act (AsyncSession.mk { db := fa.db } "open")).conn).calls ++
            [ConnCall.commitCall]) ∧
      (out = .normal → fa.auto_commit = false →
        ((runBodyAsync act (AsyncSession.mk { db := fa.db } "open")).conn).inTx = true →
        ((fa.begin act out).2).calls =
          ((runBodyAsync act (AsyncSession.mk { db := fa.db } "open")).conn).calls ++
            [ConnCall.rollbackCall]) ∧
      (out = .raised → fa.auto_commit = true →
        ((fa.begin act out).2).calls =
          ((runBodyAsync act (AsyncSession.mk { db := fa.db } "open")).conn).calls ++
            [ConnCall.rollbackCall]) ∧
      ((fa.begin act out).2).inTx = false) := by
  cases act <;> cases out <;> by_cases hauto : f.auto_commit <;>
    by_cases hauto2 : fa.auto_commit <;>
    simp [SessionFactory.begin, AsyncSessionFactory.begin, runBody, runBodyAsync,
      Session.commit, Session.rollback, AsyncSession.commit, AsyncSession.rollback,
      Conn.commit, Conn.rollback, Conn.in_transaction, engineExit, hauto, hauto2]

/-- C5 witness: a concrete scope (auto-commit factory, idle body, normal
exit) commits and ends with the transaction closed. -/
theorem c5_begin_scope_finalization_witness :
    Outcome.normal = Outcome.normal ∧
    ({ db := [] } : SessionFactory).auto_commit = true ∧
    ((SessionFactory.begin { db := [] } .idle .normal).2).calls =
      ((runBody .idle (Session.mk { db := [] } "open")).conn).calls ++
        [ConnCall.commitCall] ∧
    ((SessionFactory.begin { db := [] } .idle .normal).2).inTx = false :=
  ⟨rfl, rfl,
    (c5_begin_scope_finalization { db := [] } { db := [] } .idle .normal).1.2.1 rfl rfl,
    (c5_begin_scope_finalization { db := [] } { db := [] } .idle .normal).1.2.2.2.2⟩

/-- C10: with `auto_commit = true` the normal-exit path of `begin()` calls
the connection's `commit()` unconditionally — even when the caller already
finalized the session inside the block (the `in_transaction()` guard exists
only on the `auto_commit = false` path) — so a manually committed or rolled
back session still receives a connection-level `commit()` at scope exit. -/
theorem c10_commit_unconditional_on_autocommit (f : SessionFactory)
    (fa : AsyncSessionFactory) (hf : f.auto_commit = true)
    (hfa : fa.auto_commit = true) :
    ((f.begin .committed .normal).2).calls =
      [ConnCall.commitCall, ConnCall.commitCall] ∧
    ((f.begin .rolledBack .normal).2).calls =
      [ConnCall.rollbackCall, ConnCall.commitCall] ∧
    ((f.begin .idle .normal).2).calls = [ConnCall.commitCall] ∧
    ((fa.begin .committed .normal).2).calls =
      [ConnCall.commitCall, ConnCall.commitCall] ∧
    ((fa.begin .rolledBack .normal).2).calls =
      [ConnCall.rollbackCall, ConnCall.commitCall] ∧
    ((fa.begin .idle .normal).2).calls = [ConnCall.commitCall] := by
  simp [SessionFactory.begin, AsyncSessionFactory.begin, runBody, runBodyAsync,
    Session.commit, Session.rollback, AsyncSession.commit, AsyncSession.rollback,
    Conn.commit, Conn.rollback, Conn.in_transaction, engineExit, hf, hfa]

/-- C10 witness: the default factory (auto-commit) at a concrete database. -/
theorem c10_commit_unconditional_on_autocommit_witness :
    ({ db := [] } : SessionFactory).auto_commit = true ∧
    ((SessionFactory.begin { db := [] } .committed .normal).2).calls =
      [ConnCall.commitCall, ConnCall.commitCall] :=
  ⟨rfl, (c10_commit_unconditional_on_autocommit { db := [] } { db := [] } rfl rfl).1⟩

theorem bulk_persistent.bp_sync_trips (c : Conn) (st : Statement) :
    ((bulk_persistent.sync_orm_execute_statement c st).2).trips = c.trips + 1 := by
  unfold bulk_persistent.sync_orm_execute_statement
  by_cases hret : st._returning <;> simp [hret, Conn.execute_trips c st]

theorem bulk_persistent.bp_async_trips (c : Conn) (st : Statement) :
    ((bulk_persistent.orm_execute_statement c st).2).trips = c.trips + 1 := by
  unfold bulk_persistent.orm_execute_statement
  by_cases hret : st._returning <;> simp [hret, Conn.execute_trips c st]

theorem omcontext.ctx_sync_trips (c : Conn) (st : Statement) :
    ((omcontext.sync_orm_execute_statement c st).2).trips = c.trips + 1 := by
  unfold omcontext.sync_orm_execute_statement
  simp [Conn.execute_trips c st]

theorem omcontext.ctx_async_trips (c : Conn) (st : Statement) :
    ((omcontext.orm_execute_statement c st).2).trips = c.trips + 1 := by
  unfold omcontext.orm_execute_statement
  simp [Conn.execute_trips c st]

theorem Session.sync_execute_trips (s : Session) (st : Statement)
    (hex : st.isExecutable = true) :
    (((s.execute st).2).conn).trips = s.conn.trips + 1 := by
  unfold Session.execute
  split
  · simp [bulk_persistent.bp_sync_trips s.conn st]
  · simp [hex, omcontext.ctx_sync_trips s.conn st]

theorem AsyncSession.async_execute_trips (s : AsyncSession) (st : Statement)
    (hex : st.isExecutable = true) :
    (((s.execute st).2).conn).trips = s.conn.trips + 1 := by
  unfold AsyncSession.execute
  split
  · simp [bulk_persistent.bp_async_trips s.conn st]
  · simp [hex, omcontext.ctx_async_trips s.conn st]

/-- C8: `tuples()` and `scalars()` are derived views over `execute()`'s
result: each equals `execute(...)` followed by the corresponding result
reshaping, executing the statement exactly once (one round trip); and on a
concrete two-entity join select (the shape of `test_multi_select`), the tuple
path yields per-row positional pairs of independently hydrated entities
(distinct object identities) while the scalar path keeps only the first
selected entity of each row. -/
theorem c8_tuples_scalars_derived_views (s : Session) (sa : AsyncSession)
    (st : Statement) (hex : st.isExecutable = true) :
    s.tuples st = ((s.execute st).1.map SessionResult.tuples, (s.execute st).2) ∧
    s.scalars st = ((s.execute st).1.map SessionResult.scalars, (s.execute st).2) ∧
    sa.tuples st = ((sa.execute st).1.map SessionResult.tuples, (sa.execute st).2) ∧
    sa.scalars st = ((sa.execute st).1.map SessionResult.scalars, (sa.execute st).2) ∧
    (((s.tuples st).2).conn).trips = s.conn.trips + 1 ∧
    (((s.scalars st).2).conn).trips = s.conn.trips + 1 ∧
    (((sa.tuples st).2).conn).trips = sa.conn.trips + 1 ∧
    (((sa.scalars st).2).conn).trips = sa.conn.trips + 1 ∧
    (Session.tuples { conn := { db := [⟨"i1", "a", "1", 0⟩, ⟨"i2", "b", "2", 1⟩] } }
        joinStmt).1 =
      .ok (.hydrated
        [[⟨0, ⟨"i1", "a", "1", 0⟩⟩, ⟨1, ⟨"i1", "a", "1", 0⟩⟩],
         [⟨2, ⟨"i2", "b", "2", 1⟩⟩, ⟨3, ⟨"i2", "b", "2", 1⟩⟩]]) ∧
    (Session.scalars { conn := { db := [⟨"i1", "a", "1", 0⟩, ⟨"i2", "b", "2", 1⟩] } }
        joinStmt).1 =
      .ok (.hydrated [some ⟨0, ⟨"i1", "a", "1", 0⟩⟩, some ⟨2, ⟨"i2", "b", "2", 1⟩⟩]) := by
  refine ⟨rfl, rfl, rfl, rfl,
    Session.sync_execute_trips s st hex, Session.sync_execute_trips s st hex,
    AsyncSession.async_execute_trips sa st hex, AsyncSession.async_execute_trips sa st hex,
    ?_, ?_⟩ <;> rfl

/-- C8 witness: the derived-view equations at a concrete session and
statement. -/
theorem c8_tuples_scalars_derived_views_witness :
    selectAllStmt.isExecutable = true ∧
    Session.tuples { conn := { db := [] } } selectAllStmt =
      ((Session.execute { conn := { db := [] } } selectAllStmt).1.map
          SessionResult.tuples,
        (Session.execute { conn := { db := [] } } selectAllStmt).2) :=
  ⟨rfl, (c8_tuples_scalars_derived_views { conn := { db := [] } }
    { conn := { db := [] } } selectAllStmt rfl).1⟩
